import Mathlib

/-!
# Verification of the grouped-rate aggregation and binning engine

Shallow embedding of the core logic of `sales_dashboard.py` and `dashboard_hr.py`:
CSV loading/derivation (`load_data`), fixed-edge binning (`pd.cut` with `right=False`),
grouped attrition-rate summaries (`groupby(...).agg` / `groupby(...).mean`),
the sidebar filter pipeline, and the Sales deep-dive tab.

Floating-point rates are modelled as exact rationals (`ℚ`); a pandas `NaN`
produced by the 0/0 division of an empty group is modelled as `none : Option ℚ`.
-/

namespace Dashboard

/-! ## Loader model (schema level)

For the loader claims only the set of columns matters: accessing a missing
column in pandas raises a `KeyError` naming that column.  `Csv` is a frame
with a header; `getCol` is `df[c]`. -/

structure Csv where
  cols : List String
deriving Repr, DecidableEq

inductive LoadError where
  | keyError (col : String)
deriving Repr, DecidableEq

def getCol (f : Csv) (c : String) : Except LoadError Unit :=
  if c ∈ f.cols then .ok () else .error (.keyError c)

def isOk {ε α : Type} : Except ε α → Bool
  | .ok _ => true
  | .error _ => false

/-- `load_data` of `sales_dashboard.py`: reads the CSV, then accesses
`Attrition` (outcome derivation), `Age` and `YearsAtCompany` (binning),
adding the three derived columns.  No other column is touched inside load. -/
def load_data_sales (f : Csv) : Except LoadError Csv :=
  match getCol f "Attrition" with
  | .error e => .error e
  | .ok _ =>
    match getCol f "Age" with
    | .error e => .error e
    | .ok _ =>
      match getCol f "YearsAtCompany" with
      | .error e => .error e
      | .ok _ => .ok ⟨f.cols ++ ["Attrition_Numeric", "Age_Group", "YearsAtCompany_Group"]⟩

/-- `load_data` of `dashboard_hr.py`: only `pd.read_csv` inside the function
(guarded by `FileNotFoundError`); it accesses no column, so any frame loads. -/
def load_data_hr (f : Csv) : Except LoadError Csv := .ok f

/-- Columns that the aggregation and binning steps of the two scripts use
(grouping keys, outcome source, binned columns, filter columns). -/
def requiredAggCols : List String :=
  ["Attrition", "Age", "YearsAtCompany", "Department", "JobRole", "Gender",
   "MaritalStatus", "OverTime", "BusinessTravel", "WorkLifeBalance",
   "JobSatisfaction", "JobLevel", "YearsSinceLastPromotion", "MonthlyIncome"]

/-! ## Row model

One record of the HR attrition table, restricted to the columns the
aggregation/binning core reads. -/

structure Row where
  attrition : String
  age : Int
  yearsAtCompany : Int
  department : String
  jobRole : String
  gender : String
  overTime : String
  jobSatisfaction : Int
  jobLevel : Int
  businessTravel : String
  workLifeBalance : Int
  maritalStatus : String
  yearsSinceLastPromotion : Int
deriving Repr, DecidableEq

/-- `df['Attrition'].apply(lambda x: 1 if x == 'Yes' else 0)` (both scripts). -/
def attritionNumeric (r : Row) : Int :=
  if r.attrition = "Yes" then 1 else 0

/-! ## Binning: `pd.cut(xs, bins=edges, labels=labels, right=False)`

A value `x` falls in the half-open interval `[edges[i], edges[i+1])` and is
labelled `labels[i]`; a value outside every interval becomes `NaN` (`none`). -/

def pdCut (edges : List Int) (labels : List String) (x : Int) : Option String :=
  match edges, labels with
  | e0 :: e1 :: es, l :: ls =>
      if e0 ≤ x ∧ x < e1 then some l else pdCut (e1 :: es) ls x
  | _, _ => none

/-- The index of the half-open interval of `edges` containing `x`. -/
def pdCutIdx (edges : List Int) (x : Int) : Option Nat :=
  match edges with
  | e0 :: e1 :: es =>
      if e0 ≤ x ∧ x < e1 then some 0 else (pdCutIdx (e1 :: es) x).map (· + 1)
  | _ => none

/-- Maximum of a column, 0 on the empty list (`df[col].max()`; the scripts
only use it on the nonnegative `YearsAtCompany`/`YearsSinceLastPromotion`). -/
def colMax (xs : List Int) : Int := xs.foldl max 0

/-- Declared Age table of `sales_dashboard.py`: `bins=[18,30,40,50,60]`. -/
def ageBins : List Int := [18, 30, 40, 50, 60]

def ageLabels : List String := ["20s", "30s", "40s", "50s+"]

def salesAgeKey (r : Row) : Option String := pdCut ageBins ageLabels r.age

/-- Age table of `dashboard_hr.py`: same edges, labels `18-29`, …, `50-59`. -/
def hrAgeLabels : List String := ["18-29", "30-39", "40-49", "50-59"]

def hrAgeKey (r : Row) : Option String := pdCut ageBins hrAgeLabels r.age

/-- Tenure table of `sales_dashboard.py`:
`bins=[-1, 2, 5, 10, df['YearsAtCompany'].max() + 1]`. -/
def salesYearsBins (maxY : Int) : List Int := [-1, 2, 5, 10, maxY + 1]

def yearsLabels : List String := ["0-2 Years", "3-5 Years", "6-10 Years", "11+ Years"]

def salesYearsCut (maxY y : Int) : Option String := pdCut (salesYearsBins maxY) yearsLabels y

/-- Tenure table of `dashboard_hr.py`:
`bins=[0, 3, 6, 11, df['YearsAtCompany'].max() + 1]`, Korean labels. -/
def hrYearsBins (maxY : Int) : List Int := [0, 3, 6, 11, maxY + 1]

def hrYearsLabels : List String := ["0-2년", "3-5년", "6-10년", "11년 이상"]

def hrYearsCut (maxY y : Int) : Option String := pdCut (hrYearsBins maxY) hrYearsLabels y

/-- Modelled from the spec: the declared YearsAtCompany bucket table of §6,
edges `[0,2,5,10,max+1)` with labels `0-2 Years, …, 11+ Years` (right-open).
Stated by the spec as the table both variants use; kept separate from the
two source tables above so they can be compared. -/
def specYearsCut (maxY y : Int) : Option String :=
  pdCut [0, 2, 5, 10, maxY + 1] yearsLabels y

/-- Promotion table of the Sales deep dive:
`bins=[-1, 0, 2, 5, df_sales['YearsSinceLastPromotion'].max() + 1]`. -/
def promoBins (maxP : Int) : List Int := [-1, 0, 2, 5, maxP + 1]

def promoLabels : List String := ["0 Years", "1-2 Years", "3-5 Years", "6+ Years"]

/-- The sales `Age_Group`/`YearsAtCompany_Group` keys of a loaded dataset
(`load_data` derives them once, with the tenure edges computed from the
full dataset's maximum). -/
def salesYearsKey (df : List Row) (r : Row) : Option String :=
  salesYearsCut (colMax (df.map (·.yearsAtCompany))) r.yearsAtCompany

def promoKey (df : List Row) (r : Row) : Option String :=
  pdCut (promoBins (colMax (df.map (·.yearsSinceLastPromotion)))) promoLabels
    r.yearsSinceLastPromotion

/-! ## Aggregator

`create_rate_bar_chart` (sales variant) computes
`df.groupby(column, observed=False)['Attrition_Numeric'].agg(total='count',
attrition_count='sum')` and then `rate = attrition_count / total * 100`.
For an empty group (a category with no rows, possible only with
`observed=False` on a categorical column) the float division `0/0` is `NaN`,
modelled as `none`. -/

structure GroupSummary (κ : Type) where
  key : κ
  total : Nat
  attrition_count : Int
  rate : Option ℚ
deriving Repr, DecidableEq

def sumOutcome (g : List Row) : Int := (g.map attritionNumeric).sum

def mkSummary {κ : Type} (k : κ) (g : List Row) : GroupSummary κ :=
  { key := k
    total := g.length
    attrition_count := sumOutcome g
    rate := if g.length = 0 then none
            else some ((sumOutcome g : ℚ) / (g.length : ℚ) * 100) }

/-- `groupby` on a plain (non-categorical) column: one group per distinct
observed key value, listed in sorted key order (`sort=True`, the default). -/
def summarize {κ : Type} [DecidableEq κ] [LinearOrder κ] (rows : List Row) (key : Row → κ) :
    List (GroupSummary κ) :=
  (((rows.map key).dedup).insertionSort (· ≤ ·)).map
    fun v => mkSummary v (rows.filter fun r => key r = v)

/-- `groupby` on a categorical column produced by `pd.cut`: group order is the
declared category (label) order; `observed := false` keeps categories with no
rows, `observed := true` drops them; rows whose key is `NaN` are dropped. -/
def summarizeCat (cats : List String) (observed : Bool) (rows : List Row)
    (key : Row → Option String) : List (GroupSummary String) :=
  (if observed then cats.filter (fun c => rows.any fun r => key r = some c) else cats).map
    fun c => mkSummary c (rows.filter fun r => key r = some c)

def sumTotals {κ : Type} (s : List (GroupSummary κ)) : Nat := (s.map (·.total)).sum

/-- Ordering used by `attrition_summary.sort_values(by='Attrition Rate (%)',
ascending=False)`: larger rate first, `NaN` last. -/
def rateDescB {κ : Type} (a b : GroupSummary κ) : Bool :=
  match a.rate, b.rate with
  | some x, some y => y ≤ x
  | some _, none => true
  | none, some _ => false
  | none, none => true

def chartData {κ : Type} (s : List (GroupSummary κ)) : List (GroupSummary κ) :=
  s.insertionSort (fun a b => rateDescB a b = true)

/-- `create_rate_bar_chart` on a plain column: returns `None` on an empty
dataframe, otherwise the summary sorted by descending rate (the bar order
of the rendered chart). -/
def create_rate_bar_chart {κ : Type} [DecidableEq κ] [LinearOrder κ] (rows : List Row)
    (key : Row → κ) : Option (List (GroupSummary κ)) :=
  if rows = [] then none else some (chartData (summarize rows key))

/-- `create_rate_bar_chart` on a categorical (binned) column. -/
def create_rate_bar_chart_cat (cats : List String) (rows : List Row)
    (key : Row → Option String) : Option (List (GroupSummary String)) :=
  if rows = [] then none else some (chartData (summarizeCat cats false rows key))

/-- `calculate_attrition_rate`: `0.0` on an empty dataframe, else
`df['Attrition_Numeric'].sum() / len(df) * 100`. -/
def calculate_attrition_rate (rows : List Row) : ℚ :=
  if rows.length = 0 then 0
  else ((sumOutcome rows : ℚ) / (rows.length : ℚ)) * 100

/-- `Series.mean()`: sum divided by count. -/
def pdMean (xs : List Int) : ℚ := (xs.sum : ℚ) / (xs.length : ℚ)

/-- The per-group rate of `dashboard_hr.py`
(`groupby(...)['Attrition_numeric'].mean()` followed by `*= 100`),
applied to one group of rows. -/
def hr_group_rate (rows : List Row) : ℚ := pdMean (rows.map attritionNumeric) * 100

/-! ## Two-dimensional summaries

`df_treemap`: `groupby(['JobLevel','JobSatisfaction'], observed=False)` —
both key columns are plain integer columns, so the result has one row per
*observed* `(JobLevel, JobSatisfaction)` pair, in sorted key order; the
per-group rate is `sum/len*100` with an (unreachable) `len = 0` guard
returning `0`. -/

structure Cell2 where
  jobLevel : Int
  jobSatisfaction : Int
  total : Nat
  attrition_rate : ℚ
deriving Repr, DecidableEq

def pairKey (r : Row) : Int × Int := (r.jobLevel, r.jobSatisfaction)

def pairLe (a b : Int × Int) : Prop := a.1 < b.1 ∨ (a.1 = b.1 ∧ a.2 ≤ b.2)

instance : DecidableRel pairLe := fun a b => by unfold pairLe; infer_instance

def observedPairs (rows : List Row) : List (Int × Int) :=
  ((rows.map pairKey).dedup).insertionSort pairLe

def df_treemap (rows : List Row) : List Cell2 :=
  (observedPairs rows).map fun p =>
    let g := rows.filter fun r => pairKey r = p
    { jobLevel := p.1
      jobSatisfaction := p.2
      total := g.length
      attrition_rate := if g.length > 0 then (sumOutcome g : ℚ) / (g.length : ℚ) * 100 else 0 }

/-- `job_level_satisfaction` of `dashboard_hr.py`:
`groupby(['JobLevel','JobSatisfaction'])['Attrition_numeric'].mean()` plus a
`size` column — again one entry per observed pair only. -/
def job_level_satisfaction (rows : List Row) : List (Int × Int × ℚ × Nat) :=
  (observedPairs rows).map fun p =>
    let g := rows.filter fun r => pairKey r = p
    (p.1, p.2, pdMean (g.map attritionNumeric), g.length)

/-! ## Sidebar filtering and the Sales deep-dive tab -/

structure Selection where
  departments : List String
  jobRoles : List String
  gender : String
  ageLo : Int
  ageHi : Int

/-- The `filtered_df` pipeline (identical in both scripts): a boolean-mask
conjunction over department/job-role membership and the age range, followed
by a second gender filter unless `'All'` is selected. -/
def applyFilters (df : List Row) (s : Selection) : List Row :=
  let base := df.filter fun r =>
    r.department ∈ s.departments ∧ r.jobRole ∈ s.jobRoles ∧
      s.ageLo ≤ r.age ∧ r.age ≤ s.ageHi
  if s.gender = "All" then base else base.filter fun r => r.gender = s.gender

/-- `df_sales = df[df['Department'] == 'Sales']` (tab 4, from the *full*
loaded dataframe). -/
def df_sales (df : List Row) : List Row := df.filter fun r => r.department = "Sales"

structure Tab4 where
  sales_total : Nat
  sales_attrition_rate : ℚ
  overTimeChart : Option (List (GroupSummary String))
  businessTravelChart : Option (List (GroupSummary String))
  jobSatisfactionChart : Option (List (GroupSummary Int))
  yearsChart : Option (List (GroupSummary String))
  promoChart : Option (List (GroupSummary String))
  workLifeChart : Option (List (GroupSummary Int))
  jobLevelChart : Option (List (GroupSummary Int))

/-- The aggregations of tab 4 (`Sales deep dive`) of `sales_dashboard.py`.
The sidebar selection `sel` is in scope in the script but every tab-4
computation starts from `df_sales`, i.e. from the full dataframe `df`;
`YearsAtCompany_Group` was derived at load time from the full `df`, and
`Promo_Group` is derived inside the tab from `df_sales`. -/
def tab4_outputs (df : List Row) (sel : Selection) : Tab4 :=
  let _ := sel
  let ds := df_sales df
  { sales_total := ds.length
    sales_attrition_rate := calculate_attrition_rate ds
    overTimeChart := create_rate_bar_chart ds (·.overTime)
    businessTravelChart := create_rate_bar_chart ds (·.businessTravel)
    jobSatisfactionChart := create_rate_bar_chart ds (·.jobSatisfaction)
    yearsChart := create_rate_bar_chart_cat yearsLabels ds (salesYearsKey df)
    promoChart := create_rate_bar_chart_cat promoLabels ds (promoKey ds)
    workLifeChart := create_rate_bar_chart ds (·.workLifeBalance)
    jobLevelChart := create_rate_bar_chart ds (·.jobLevel) }

/-! ## Concrete datasets used by the scenario claims and counterexamples -/

/-- A default row (values as they occur in the HR CSV). -/
def row0 : Row :=
  { attrition := "No", age := 30, yearsAtCompany := 5, department := "Sales"
    jobRole := "Sales Executive", gender := "Male", overTime := "Yes"
    jobSatisfaction := 3, jobLevel := 1, businessTravel := "Travel_Rarely"
    workLifeBalance := 3, maritalStatus := "Single", yearsSinceLastPromotion := 1 }

/-- 10 rows, 3 with `Attrition="Yes"`, 7 with `"No"`, all `OverTime="Yes"`. -/
def ex10 : List Row :=
  List.replicate 3 { row0 with attrition := "Yes" } ++ List.replicate 7 row0

/-- A single row with `Age = 60`: outside every `[18,30,40,50,60)` interval. -/
def exAge60 : List Row := [{ row0 with age := 60 }]

/-- A single row with `Age = 25`: only the `20s` bucket is inhabited. -/
def exAge25 : List Row := [{ row0 with age := 25, attrition := "Yes" }]

/-- Three rows with tenures 0, 3 and 40, giving the year buckets the rates
0%, 100%, NaN, 0% in declared order. -/
def exC7 : List Row :=
  [{ row0 with yearsAtCompany := 0, attrition := "No" },
   { row0 with yearsAtCompany := 3, attrition := "Yes" },
   { row0 with yearsAtCompany := 40, attrition := "No" }]

/-- Two rows observing key pairs `(1,4)` and `(2,3)`: the coordinates
`(1,3)` and `(2,4)` of the full matrix have no observation. -/
def exC6 : List Row :=
  [{ row0 with jobLevel := 1, jobSatisfaction := 4 },
   { row0 with jobLevel := 2, jobSatisfaction := 3 }]

/-- Two rows sharing the single key pair `(1,4)`, both non-leavers. -/
def exSame : List Row :=
  [{ row0 with jobLevel := 1, jobSatisfaction := 4 },
   { row0 with jobLevel := 1, jobSatisfaction := 4, gender := "Female" }]

/-! ## Helper lemmas -/

theorem sumOutcome_nonneg (g : List Row) : 0 ≤ sumOutcome g := by
  induction g with
  | nil => simp [sumOutcome]
  | cons r rs ih =>
      simp only [sumOutcome, List.map_cons, List.sum_cons] at *
      have : 0 ≤ attritionNumeric r := by unfold attritionNumeric; split <;> omega
      omega

theorem sumOutcome_le_length (g : List Row) : sumOutcome g ≤ g.length := by
  induction g with
  | nil => simp [sumOutcome]
  | cons r rs ih =>
      simp only [sumOutcome, List.map_cons, List.sum_cons, List.length_cons] at *
      have : attritionNumeric r ≤ 1 := by unfold attritionNumeric; split <;> omega
      omega

/-- Bounds for the per-group rate `sum/len * 100` of a non-empty group. -/
theorem rate_bounds (g : List Row) (h : g.length ≠ 0) :
    0 ≤ (sumOutcome g : ℚ) / (g.length : ℚ) * 100 ∧
    (sumOutcome g : ℚ) / (g.length : ℚ) * 100 ≤ 100 ∧
    (sumOutcome g = 0 ↔ (sumOutcome g : ℚ) / (g.length : ℚ) * 100 = 0) ∧
    (sumOutcome g = g.length → (sumOutcome g : ℚ) / (g.length : ℚ) * 100 = 100) := by
  have hs0 : (0 : ℚ) ≤ (sumOutcome g : ℚ) := by exact_mod_cast sumOutcome_nonneg g
  have hsn : (sumOutcome g : ℚ) ≤ (g.length : ℚ) := by exact_mod_cast sumOutcome_le_length g
  have hn : (0 : ℚ) < (g.length : ℚ) := by
    have : 0 < g.length := Nat.pos_of_ne_zero h
    exact_mod_cast this
  refine ⟨?_, ?_, ?_, ?_⟩
  · positivity
  · have hdiv : (sumOutcome g : ℚ) / (g.length : ℚ) ≤ 1 := (div_le_one hn).mpr hsn
    calc (sumOutcome g : ℚ) / (g.length : ℚ) * 100 ≤ 1 * 100 := by
          exact mul_le_mul_of_nonneg_right hdiv (by norm_num)
      _ = 100 := by norm_num
  · constructor
    · intro h0; rw [h0]; simp
    · intro h0
      rcases mul_eq_zero.mp h0 with h1 | h1
      · have := (div_eq_zero_iff.mp h1)
        rcases this with h2 | h2
        · exact_mod_cast h2
        · exact absurd h2 (ne_of_gt hn)
      · norm_num at h1
  · intro he
    rw [he]
    push_cast
    rw [div_self (ne_of_gt hn)]
    norm_num

theorem sum_map_add {κ : Type} (K : List κ) (f g : κ → Nat) :
    (K.map fun v => f v + g v).sum = (K.map f).sum + (K.map g).sum := by
  induction K with
  | nil => simp
  | cons v vs ih => simp only [List.map_cons, List.sum_cons, ih]; omega

theorem sum_indicator_not_mem {κ : Type} [DecidableEq κ] (K : List κ) (a : κ)
    (ha : a ∉ K) : (K.map fun v => if a = v then (1 : Nat) else 0).sum = 0 := by
  induction K with
  | nil => simp
  | cons v vs ih =>
      simp only [List.mem_cons, not_or] at ha
      simp only [List.map_cons, List.sum_cons, if_neg ha.1, ih ha.2]

theorem sum_indicator_mem {κ : Type} [DecidableEq κ] (K : List κ) (hnd : K.Nodup)
    (a : κ) (ha : a ∈ K) : (K.map fun v => if a = v then (1 : Nat) else 0).sum = 1 := by
  induction K with
  | nil => simp at ha
  | cons v vs ih =>
      rcases List.nodup_cons.mp hnd with ⟨hv, hvs⟩
      rcases List.mem_cons.mp ha with h | h
      · subst h
        simp only [List.map_cons, List.sum_cons, if_pos rfl, sum_indicator_not_mem vs a hv]
        simp
      · have hav : a ≠ v := fun hav => hv (hav ▸ h)
        simp only [List.map_cons, List.sum_cons, if_neg hav, ih hvs h]

/-- Summing the per-key group sizes over a duplicate-free key list covering
every row gives back the number of rows. -/
theorem sum_counts {κ : Type} [DecidableEq κ] (K : List κ) (hnd : K.Nodup)
    (rows : List Row) (key : Row → κ) (hcov : ∀ r ∈ rows, key r ∈ K) :
    (K.map fun v => (rows.filter fun r => key r = v).length).sum = rows.length := by
  induction rows with
  | nil => simp
  | cons r rs ih =>
      have hrec :
          (K.map fun v => ((r :: rs).filter fun x => key x = v).length).sum =
            (K.map fun v => (if key r = v then (1 : Nat) else 0) +
              (rs.filter fun x => key x = v).length).sum := by
        congr 1
        apply List.map_congr_left
        intro v _
        by_cases h : key r = v
        · simp [List.filter_cons, h]; omega
        · simp [List.filter_cons, h]
      rw [hrec, sum_map_add, sum_indicator_mem K hnd (key r) (hcov r (by simp)),
        ih (fun x hx => hcov x (by simp [hx]))]
      simp [Nat.add_comm]

/-- Closed form of the Age binning. -/
theorem age_cases (x : Int) :
    pdCut ageBins ageLabels x =
      (if 18 ≤ x ∧ x < 30 then some "20s"
       else if 30 ≤ x ∧ x < 40 then some "30s"
       else if 40 ≤ x ∧ x < 50 then some "40s"
       else if 50 ≤ x ∧ x < 60 then some "50s+"
       else none) := by
  simp [pdCut, ageBins, ageLabels]

/-- Closed form of the sales tenure binning. -/
theorem sales_years_cases (maxY x : Int) :
    salesYearsCut maxY x =
      (if -1 ≤ x ∧ x < 2 then some "0-2 Years"
       else if 2 ≤ x ∧ x < 5 then some "3-5 Years"
       else if 5 ≤ x ∧ x < 10 then some "6-10 Years"
       else if 10 ≤ x ∧ x < maxY + 1 then some "11+ Years"
       else none) := by
  simp [salesYearsCut, pdCut, salesYearsBins, yearsLabels]

theorem le_foldl_max_init (xs : List Int) (a b : Int) (h : b ≤ a) :
    b ≤ xs.foldl max a := by
  induction xs generalizing a with
  | nil => simpa using h
  | cons x xs ih => exact ih (max a x) (le_trans h (le_max_left a x))

theorem mem_le_colMax (xs : List Int) (x : Int) (hx : x ∈ xs) : x ≤ colMax xs := by
  unfold colMax
  generalize (0 : Int) = a
  induction xs generalizing a with
  | nil => simp at hx
  | cons y ys ih =>
      rcases List.mem_cons.mp hx with h | h
      · subst h
        exact le_foldl_max_init ys (max a x) x (le_max_right a x)
      · simpa using ih h (max a y)

/-- `pdCut` returns the label at the index of the containing interval. -/
theorem pdCut_eq_pdCutIdx (edges : List Int) (labels : List String) (x : Int) :
    pdCut edges labels x = (pdCutIdx edges x).bind fun i => labels.get? i := by
  induction edges generalizing labels with
  | nil => simp [pdCut, pdCutIdx]
  | cons e0 rest ih =>
      cases rest with
      | nil => cases labels <;> simp [pdCut, pdCutIdx]
      | cons e1 es =>
          cases labels with
          | nil =>
              simp only [pdCut, pdCutIdx]
              split
              · simp
              · cases pdCutIdx (e1 :: es) x <;> simp
          | cons l ls =>
              simp only [pdCut, pdCutIdx]
              split
              · simp
              · rw [ih ls]
                cases pdCutIdx (e1 :: es) x <;> simp

/-- Each age hits exactly one Age bucket iff it lies in `[18, 60)`. -/
theorem age_indicator (x : Int) :
    (ageLabels.map fun c => if pdCut ageBins ageLabels x = some c then (1 : Nat) else 0).sum =
      if 18 ≤ x ∧ x < 60 then 1 else 0 := by
  rw [age_cases]
  split_ifs <;> simp_all [ageLabels] <;> omega

/-- Each in-range tenure hits exactly one sales tenure bucket. -/
theorem years_indicator (maxY x : Int) (h0 : 0 ≤ x) (hM : x ≤ maxY) :
    (yearsLabels.map fun c => if salesYearsCut maxY x = some c then (1 : Nat) else 0).sum = 1 := by
  rw [sales_years_cases]
  split_ifs <;> simp_all [yearsLabels]
  omega

/-- Summing group sizes over a category list that absorbs each row exactly
when `P` holds of it counts the rows satisfying `P`. -/
theorem sum_counts_opt (cats : List String) (rows : List Row) (key : Row → Option String)
    (P : Row → Prop) [DecidablePred P]
    (hind : ∀ r ∈ rows,
      (cats.map fun c => if key r = some c then (1 : Nat) else 0).sum = if P r then 1 else 0) :
    (cats.map fun c => (rows.filter fun r => key r = some c).length).sum =
      (rows.filter fun r => P r).length := by
  induction rows with
  | nil => simp
  | cons r rs ih =>
      have hrec :
          (cats.map fun c => ((r :: rs).filter fun x => key x = some c).length).sum =
            (cats.map fun c => (if key r = some c then (1 : Nat) else 0) +
              (rs.filter fun x => key x = some c).length).sum := by
        congr 1
        apply List.map_congr_left
        intro c _
        by_cases h : key r = some c
        · simp [List.filter_cons, h]; omega
        · simp [List.filter_cons, h]
      rw [hrec, sum_map_add, hind r (by simp), ih (fun x hx => hind x (by simp [hx]))]
      by_cases hP : P r <;> simp [List.filter_cons, hP]
      omega

theorem sumTotals_summarizeCat (cats : List String) (rows : List Row)
    (key : Row → Option String) :
    sumTotals (summarizeCat cats false rows key) =
      (cats.map fun c => (rows.filter fun r => key r = some c).length).sum := by
  simp [sumTotals, summarizeCat, mkSummary, List.map_map]
  rfl

/-- `groupby` on a plain column partitions the rows: group sizes sum to the
dataset size. -/
theorem sumTotals_summarize {κ : Type} [DecidableEq κ] [LinearOrder κ] (rows : List Row)
    (key : Row → κ) :
    sumTotals (summarize rows key) = rows.length := by
  have hperm := List.perm_insertionSort (α := κ) (· ≤ ·) ((rows.map key).dedup)
  have hnd : (((rows.map key).dedup).insertionSort (· ≤ ·)).Nodup :=
    (hperm.nodup_iff).mpr (List.nodup_dedup _)
  have hcov : ∀ r ∈ rows, key r ∈ ((rows.map key).dedup).insertionSort (· ≤ ·) := by
    intro r hr
    rw [List.mem_insertionSort, List.mem_dedup]
    exact List.mem_map_of_mem key hr
  have hmap : sumTotals (summarize rows key) =
      ((((rows.map key).dedup).insertionSort (· ≤ ·)).map
        fun v => (rows.filter fun r => key r = v).length).sum := by
    simp [sumTotals, summarize, mkSummary, List.map_map]
    rfl
  rw [hmap]
  exact sum_counts _ hnd rows key hcov

/-- The group order of a categorical `groupby` is the declared label order
(restricted to the observed labels when `observed=True`). -/
theorem summarizeCat_keys (cats : List String) (observed : Bool) (rows : List Row)
    (key : Row → Option String) :
    (summarizeCat cats observed rows key).map (·.key) =
      (if observed then cats.filter (fun c => rows.any fun r => key r = some c) else cats) := by
  unfold summarizeCat
  rw [List.map_map]
  have h : ((fun (x : GroupSummary String) => x.key) ∘
      fun c => mkSummary c (rows.filter fun r => key r = some c)) = id := by
    funext c; rfl
  rw [h, List.map_id]

/-! ## Claims -/

/-- C2 (counterexample): loading does **not** validate the columns required
by aggregation.  The hr loader accepts even an empty header; the sales
loader succeeds on a frame containing only `Attrition`, `Age` and
`YearsAtCompany` although the aggregation column `OverTime` is required and
absent — the error surfaces only later, on first access to that column. -/
theorem C2_counterexample :
    load_data_hr ⟨[]⟩ = .ok ⟨[]⟩ ∧
    "OverTime" ∈ requiredAggCols ∧
    "OverTime" ∉ (Csv.mk ["Attrition", "Age", "YearsAtCompany"]).cols ∧
    load_data_sales ⟨["Attrition", "Age", "YearsAtCompany"]⟩ =
      .ok ⟨["Attrition", "Age", "YearsAtCompany",
            "Attrition_Numeric", "Age_Group", "YearsAtCompany_Group"]⟩ ∧
    getCol ⟨["Attrition", "Age", "YearsAtCompany",
             "Attrition_Numeric", "Age_Group", "YearsAtCompany_Group"]⟩ "OverTime" =
      .error (.keyError "OverTime") := by
  refine ⟨rfl, by decide, by decide, rfl, rfl⟩

/-- C2 (amended): the hr loader performs no schema check at all, and the
sales loader checks exactly the three columns it derives from — success is
equivalent to the presence of `Attrition`, `Age` and `YearsAtCompany`;
when `Attrition` is missing, the failure is a `KeyError` naming that one
column, not a `SchemaError` listing all missing required columns. -/
theorem C2_amended (f : Csv) :
    load_data_hr f = .ok f ∧
    (isOk (load_data_sales f) =
      (decide ("Attrition" ∈ f.cols) && decide ("Age" ∈ f.cols) &&
        decide ("YearsAtCompany" ∈ f.cols))) ∧
    ("Attrition" ∉ f.cols → load_data_sales f = .error (.keyError "Attrition")) := by
  refine ⟨rfl, ?_, ?_⟩
  · unfold load_data_sales getCol
    split_ifs <;> simp_all [isOk]
  · intro h
    unfold load_data_sales getCol
    rw [if_neg h]

theorem C2_amended_witness :
    load_data_hr ⟨["Age"]⟩ = .ok ⟨["Age"]⟩ ∧
    load_data_sales ⟨["Age"]⟩ = .error (.keyError "Attrition") :=
  ⟨(C2_amended ⟨["Age"]⟩).1, (C2_amended ⟨["Age"]⟩).2.2 (by decide)⟩

/-- C3 (counterexample): the hr variant does not use the declared tables.
At age 25 it yields the label `18-29`, not `20s`; at `YearsAtCompany = 2`
(dataset maximum 40) it places the row in its *first* tenure bucket
(`0-2년`), while the declared table `[0,2,5,10,max+1)` places 2 in the
*second* bucket (`3-5 Years`) — a different partition, not a relabelling. -/
theorem C3_counterexample :
    hrAgeKey { row0 with age := 25 } = some "18-29" ∧
    some "18-29" ≠ some "20s" ∧
    hrYearsCut 40 2 = some "0-2년" ∧
    specYearsCut 40 2 = some "3-5 Years" ∧
    pdCutIdx (hrYearsBins 40) 2 = some 0 ∧
    pdCutIdx [0, 2, 5, 10, 41] 2 = some 1 := by
  refine ⟨by decide, by decide, by decide, by decide, by decide, by decide⟩

/-- C3 (amended): the *sales* variant uses exactly the declared tables —
ages 25, 32, 45, 58 map to `20s`, `30s`, `40s`, `50s+`, and its tenure
edges `[-1,2,5,10,max+1)` agree with the declared `[0,2,5,10,max+1)` on all
nonnegative tenures; the hr variant shares the Age *edges* (both label via
the interval index of `[18,30,40,50,60)`) but renames the labels, and uses
the different tenure edges `[0,3,6,11,max+1)`. -/
theorem C3_amended (maxY y : Int) (r : Row) (h0 : 0 ≤ y) :
    (salesAgeKey { row0 with age := 25 } = some "20s" ∧
     salesAgeKey { row0 with age := 32 } = some "30s" ∧
     salesAgeKey { row0 with age := 45 } = some "40s" ∧
     salesAgeKey { row0 with age := 58 } = some "50s+") ∧
    salesYearsCut maxY y = specYearsCut maxY y ∧
    hrAgeKey r = ((pdCutIdx ageBins r.age).bind fun i => hrAgeLabels.get? i) ∧
    salesAgeKey r = ((pdCutIdx ageBins r.age).bind fun i => ageLabels.get? i) ∧
    hrYearsCut maxY y = ((pdCutIdx (hrYearsBins maxY) y).bind fun i => hrYearsLabels.get? i) := by
  refine ⟨⟨by decide, by decide, by decide, by decide⟩, ?_, ?_, ?_, ?_⟩
  · unfold salesYearsCut specYearsCut salesYearsBins
    simp only [pdCut]
    split_ifs <;> first | rfl | omega
  · exact pdCut_eq_pdCutIdx ageBins hrAgeLabels r.age
  · exact pdCut_eq_pdCutIdx ageBins ageLabels r.age
  · exact pdCut_eq_pdCutIdx (hrYearsBins maxY) hrYearsLabels y

theorem C3_amended_witness :
    salesYearsCut 40 2 = specYearsCut 40 2 ∧ salesAgeKey row0 = some "30s" :=
  ⟨(C3_amended 40 2 row0 (by decide)).2.1,
   by
    have h := (C3_amended 40 2 row0 (by decide)).2.2.2.1
    rw [h]
    decide⟩

/-- C10: every aggregation of the Sales deep-dive tab is computed from
`df_sales = df[df['Department'] == 'Sales']`, taken from the **full**
loaded dataframe; two arbitrary sidebar selections produce identical
deep-dive outputs — the sidebar filters cannot influence them. -/
theorem C10_deep_dive_noninterference (df : List Row) (s₁ s₂ : Selection) :
    tab4_outputs df s₁ = tab4_outputs df s₂ ∧
    (tab4_outputs df s₁).sales_total = (df_sales df).length ∧
    (tab4_outputs df s₁).sales_attrition_rate = calculate_attrition_rate (df_sales df) :=
  ⟨rfl, rfl, rfl⟩

/-- C4 (counterexample): a dataset with one row of `Age = 60` — `pd.cut`
with edges `[18,30,40,50,60)` maps 60 to `NaN` and `groupby` then drops the
row, so the group totals sum to 0, not to the dataset size 1. -/
theorem C4_counterexample :
    sumTotals (summarizeCat ageLabels false exAge60 salesAgeKey) = 0 ∧
    exAge60.length = 1 ∧
    sumTotals (summarizeCat ageLabels false exAge60 salesAgeKey) ≠ exAge60.length := by
  refine ⟨by decide, rfl, by decide⟩

/-- C4 (amended): grouping by a plain column partitions the rows — totals
sum to the dataset size — and so does grouping by `YearsAtCompany_Group`
(its last edge exceeds the column maximum); but grouping by `Age_Group`
counts only the rows with `18 ≤ Age < 60`, silently dropping the rest. -/
theorem C4_amended {κ : Type} [DecidableEq κ] [LinearOrder κ] (rows : List Row) (key : Row → κ)
    (hY : ∀ r ∈ rows, 0 ≤ r.yearsAtCompany) :
    sumTotals (summarize rows key) = rows.length ∧
    sumTotals (summarizeCat ageLabels false rows salesAgeKey) =
      (rows.filter fun r => 18 ≤ r.age ∧ r.age < 60).length ∧
    sumTotals (summarizeCat yearsLabels false rows (salesYearsKey rows)) = rows.length := by
  refine ⟨sumTotals_summarize rows key, ?_, ?_⟩
  · rw [sumTotals_summarizeCat]
    exact sum_counts_opt ageLabels rows salesAgeKey (fun r => 18 ≤ r.age ∧ r.age < 60)
      (fun r _ => age_indicator r.age)
  · rw [sumTotals_summarizeCat]
    have hind : ∀ r ∈ rows,
        (yearsLabels.map fun c => if salesYearsKey rows r = some c then (1 : Nat) else 0).sum =
          if (fun _ : Row => True) r then 1 else 0 := by
      intro r hr
      have hM : r.yearsAtCompany ≤ colMax (rows.map (·.yearsAtCompany)) :=
        mem_le_colMax _ _ (List.mem_map_of_mem _ hr)
      have h := years_indicator (colMax (rows.map (·.yearsAtCompany))) r.yearsAtCompany
        (hY r hr) hM
      simpa [salesYearsKey] using h
    have h := sum_counts_opt yearsLabels rows (salesYearsKey rows) (fun _ => True) hind
    simpa using h

theorem C4_amended_witness :
    sumTotals (summarize ex10 (·.overTime)) = ex10.length ∧
    sumTotals (summarizeCat ageLabels false ex10 salesAgeKey) =
      (ex10.filter fun r => 18 ≤ r.age ∧ r.age < 60).length ∧
    sumTotals (summarizeCat yearsLabels false ex10 (salesYearsKey ex10)) = ex10.length :=
  C4_amended ex10 (·.overTime) (by decide)

/-- C5 (counterexample): on a dataset whose single row has `Age = 25`, the
`create_rate_bar_chart` aggregation over `Age_Group` (a categorical column,
`observed=False`) reports the empty buckets with `total = 0` and rate
`0/0 = NaN` (modelled `none`) — present in the output, neither omitted nor
the sentinel `0`; `calculate_attrition_rate` meanwhile returns `0` for an
empty frame, so the two call sites disagree. -/
theorem C5_counterexample :
    (∃ g ∈ summarizeCat ageLabels false exAge25 salesAgeKey,
      g.total = 0 ∧ g.rate = none) ∧
    calculate_attrition_rate [] = 0 := by
  constructor
  · refine ⟨mkSummary "30s" (exAge25.filter fun r => salesAgeKey r = some "30s"), ?_, ?_, ?_⟩
    · exact List.mem_map.mpr ⟨"30s", by decide, rfl⟩
    · decide
    · decide
  · rfl

/-- C5 (amended): every non-empty group's rate is defined and lies in
`[0,100]`, vanishing exactly when the positive count does and reaching 100
when all rows are positive; but a group with `total = 0` is reported by
`create_rate_bar_chart` with the undefined `NaN` rate (`none`), while
`calculate_attrition_rate` maps its empty-frame case to the sentinel `0` —
there is no single convention. -/
theorem C5_amended (cats : List String) (observed : Bool) (rows : List Row)
    (key : Row → Option String) :
    (∀ g ∈ summarizeCat cats observed rows key,
      (g.total ≠ 0 →
        ∃ q, g.rate = some q ∧ 0 ≤ q ∧ q ≤ 100 ∧
          (g.attrition_count = 0 ↔ q = 0) ∧
          (g.attrition_count = (g.total : Int) → q = 100)) ∧
      (g.total = 0 → g.rate = none)) ∧
    calculate_attrition_rate [] = 0 := by
  refine ⟨?_, rfl⟩
  intro g hg
  unfold summarizeCat at hg
  obtain ⟨c, _, rfl⟩ := List.mem_map.mp hg
  constructor
  · intro htot
    have hlen : (rows.filter fun r => key r = some c).length ≠ 0 := htot
    obtain ⟨h0, h100, hzero, hfull⟩ := rate_bounds _ hlen
    refine ⟨_, ?_, h0, h100, ?_, ?_⟩
    · simp only [mkSummary, if_neg hlen]
    · simpa [mkSummary] using hzero
    · intro hev
      have : sumOutcome (rows.filter fun r => key r = some c) =
          ((rows.filter fun r => key r = some c).length : Int) := by
        simpa [mkSummary] using hev
      exact hfull this
  · intro htot
    have h : (rows.filter fun r => key r = some c).length = 0 := htot
    simp only [mkSummary]
    rw [if_pos h]

theorem C5_amended_witness :
    ∃ q, (mkSummary "20s" (exAge25.filter fun r => salesAgeKey r = some "20s")).rate = some q ∧
      0 ≤ q ∧ q ≤ 100 ∧
      ((mkSummary "20s" (exAge25.filter fun r => salesAgeKey r = some "20s")).attrition_count = 0 ↔
        q = 0) ∧
      ((mkSummary "20s" (exAge25.filter fun r => salesAgeKey r = some "20s")).attrition_count =
        ((mkSummary "20s" (exAge25.filter fun r => salesAgeKey r = some "20s")).total : Int) →
        q = 100) := by
  have h := ((C5_amended ageLabels false exAge25 salesAgeKey).1
    (mkSummary "20s" (exAge25.filter fun r => salesAgeKey r = some "20s"))
    (List.mem_map.mpr ⟨"20s", by decide, rfl⟩)).1 (by decide)
  exact h

/-- C1: for every dataset and key column, each group of the summary carries
the group's row count as `total`, the outcome sum as `attrition_count`, and
the rate `100 * attrition_count / total`; concretely, on 10 rows of which 3
have `Attrition="Yes"` and all have `OverTime="Yes"`, summarizing by
`OverTime` yields the single group `("Yes", 10, 3, 30%)`. -/
theorem C1_grouped_rate_summary {κ : Type} [DecidableEq κ] [LinearOrder κ]
    (rows : List Row) (key : Row → κ) :
    (∀ g ∈ summarize rows key,
      g.total = (rows.filter fun r => key r = g.key).length ∧
      g.attrition_count = sumOutcome (rows.filter fun r => key r = g.key) ∧
      0 < g.total ∧
      g.rate = some (100 * (g.attrition_count : ℚ) / (g.total : ℚ))) ∧
    summarize ex10 (·.overTime) = [⟨"Yes", 10, 3, some 30⟩] := by
  constructor
  · intro g hg
    unfold summarize at hg
    obtain ⟨v, hv, rfl⟩ := List.mem_map.mp hg
    have hvmem : v ∈ rows.map key := List.mem_dedup.mp ((List.mem_insertionSort _).mp hv)
    obtain ⟨r, hr, hkey⟩ := List.mem_map.mp hvmem
    have hrmem : r ∈ rows.filter fun x => key x = v :=
      List.mem_filter.mpr ⟨hr, by simp [hkey]⟩
    have hne : (rows.filter fun x => key x = v).length ≠ 0 := by
      have := List.length_pos.mpr (List.ne_nil_of_mem hrmem)
      omega
    refine ⟨rfl, rfl, ?_, ?_⟩
    · exact Nat.pos_of_ne_zero hne
    · simp only [mkSummary]
      rw [if_neg hne, div_mul_eq_mul_div, mul_comm]
  · have hd : (ex10.map fun x => x.overTime).dedup = ["Yes"] := by decide
    unfold summarize
    rw [hd]
    show [mkSummary "Yes" (ex10.filter fun r => r.overTime = "Yes")] = _
    have hfilter : (ex10.filter fun r => r.overTime = "Yes") = ex10 := by decide
    rw [hfilter]
    have hlen : ex10.length = 10 := by decide
    have hsum : sumOutcome ex10 = 3 := by decide
    simp [mkSummary, hlen, hsum]
    norm_num

theorem C1_witness :
    (10 : Nat) = (ex10.filter fun r => r.overTime = "Yes").length ∧
    (3 : Int) = sumOutcome (ex10.filter fun r => r.overTime = "Yes") ∧
    (0 : Nat) < 10 ∧
    (some 30 : Option ℚ) = some (100 * ((3 : Int) : ℚ) / ((10 : Nat) : ℚ)) := by
  have h := (C1_grouped_rate_summary ex10 (·.overTime)).1 ⟨"Yes", 10, 3, some 30⟩ (by
    rw [(C1_grouped_rate_summary ex10 (·.overTime)).2]
    simp)
  exact ⟨h.1, h.2.1, h.2.2.1, h.2.2.2⟩

/-- C8: filtering composes — masking by `A` then `B` equals masking once by
the conjunction (in particular the two-stage sidebar pipeline equals one
conjunctive filter when a gender is selected) — and the default selection
(everything selected, full age range, gender `All`) returns the dataset
unchanged.  The embedding is pure, as is the pandas boolean-mask indexing
it models: filtering allocates a new frame and leaves the input untouched. -/
theorem C8_filter_compose (df : List Row) (s : Selection) :
    (∀ p q : Row → Bool, (df.filter p).filter q = df.filter fun r => p r && q r) ∧
    (s.gender ≠ "All" →
      applyFilters df s = df.filter fun r =>
        decide (r.department ∈ s.departments ∧ r.jobRole ∈ s.jobRoles ∧
          s.ageLo ≤ r.age ∧ r.age ≤ s.ageHi) && decide (r.gender = s.gender)) ∧
    ((∀ r ∈ df, r.department ∈ s.departments ∧ r.jobRole ∈ s.jobRoles ∧
        s.ageLo ≤ r.age ∧ r.age ≤ s.ageHi) → s.gender = "All" → applyFilters df s = df) := by
  refine ⟨?_, ?_, ?_⟩
  · intro p q
    rw [List.filter_filter]
    simp [Bool.and_comm]
  · intro h
    simp only [applyFilters, if_neg h]
    rw [List.filter_filter]
    simp [Bool.and_comm]
  · intro hall hg
    simp only [applyFilters, if_pos hg]
    exact List.filter_eq_self.mpr fun r hr => by simpa using hall r hr

theorem C8_witness :
    applyFilters [row0] ⟨["Sales"], ["Sales Executive"], "All", 18, 60⟩ = [row0] :=
  (C8_filter_compose [row0] ⟨["Sales"], ["Sales Executive"], "All", 18, 60⟩).2.2
    (by decide) rfl

/-- C9: on a non-empty group, the hr variant's `mean * 100` equals the sales
variant's `100 * sum / count` — both `calculate_attrition_rate` and the
per-group rate of `create_rate_bar_chart` agree with it. -/
theorem C9_rate_equivalence (rows : List Row) (h : rows ≠ []) :
    hr_group_rate rows = 100 * (sumOutcome rows : ℚ) / (rows.length : ℚ) ∧
    hr_group_rate rows = calculate_attrition_rate rows ∧
    ∀ k : String, (mkSummary k rows).rate = some (hr_group_rate rows) := by
  have hlen : rows.length ≠ 0 := by simpa [List.length_eq_zero] using h
  have h1 : hr_group_rate rows = (sumOutcome rows : ℚ) / (rows.length : ℚ) * 100 := by
    unfold hr_group_rate pdMean sumOutcome
    rw [List.length_map]
  refine ⟨?_, ?_, ?_⟩
  · rw [h1, div_mul_eq_mul_div, mul_comm]
  · rw [h1]
    unfold calculate_attrition_rate
    rw [if_neg hlen]
  · intro k
    simp only [mkSummary]
    rw [if_neg hlen, h1]

theorem C9_witness : hr_group_rate ex10 = calculate_attrition_rate ex10 :=
  (C9_rate_equivalence ex10 (by decide)).2.1

/-- C6 (counterexample): with observed pairs `(1,4)` and `(2,3)`, both
`JobLevel = 1` and `JobSatisfaction = 3` occur in the data, yet the 2-D
summary has no cell at the coordinate `(1,3)` — a pandas `groupby` on two
plain integer columns emits only the observed pairs, so the matrix is not
complete and empty coordinates carry no sentinel. -/
theorem C6_counterexample :
    ((1 : Int) ∈ exC6.map (·.jobLevel)) ∧
    ((3 : Int) ∈ exC6.map (·.jobSatisfaction)) ∧
    ∀ c ∈ df_treemap exC6, ¬(c.jobLevel = 1 ∧ c.jobSatisfaction = 3) := by
  refine ⟨by decide, by decide, by decide⟩

/-- C6 (amended): the two-dimensional summaries (`df_treemap` and
`job_level_satisfaction`) contain exactly one cell per **observed**
`(row, col)` pair — a coordinate has a cell iff some row attains it, and
unobserved coordinates are absent rather than sentinel-filled; when every
row carries the same pair, the result is that single populated cell. -/
theorem C6_amended (rows : List Row) (l s : Int) :
    ((∃ c ∈ df_treemap rows, c.jobLevel = l ∧ c.jobSatisfaction = s) ↔
      (l, s) ∈ rows.map pairKey) ∧
    ((df_treemap rows).map fun c => (c.jobLevel, c.jobSatisfaction)) = observedPairs rows ∧
    ((job_level_satisfaction rows).map fun t => (t.1, t.2.1)) = observedPairs rows ∧
    df_treemap exSame = [⟨1, 4, 2, 0⟩] := by
  refine ⟨?_, ?_, ?_, ?_⟩
  · constructor
    · rintro ⟨c, hc, hl, hs⟩
      unfold df_treemap at hc
      obtain ⟨p, hp, rfl⟩ := List.mem_map.mp hc
      have hpl : p.1 = l := hl
      have hps : p.2 = s := hs
      have hpm : p ∈ rows.map pairKey := by
        unfold observedPairs at hp
        exact List.mem_dedup.mp ((List.mem_insertionSort _).mp hp)
      rw [← hpl, ← hps]
      simpa using hpm
    · intro h
      have hp : (l, s) ∈ observedPairs rows := by
        unfold observedPairs
        rw [List.mem_insertionSort, List.mem_dedup]
        exact h
      exact ⟨_, List.mem_map_of_mem _ hp, rfl, rfl⟩
  · unfold df_treemap
    rw [List.map_map]
    exact List.map_id _
  · unfold job_level_satisfaction
    rw [List.map_map]
    exact List.map_id _
  · have hop : observedPairs exSame = [(1, 4)] := by decide
    unfold df_treemap
    rw [hop]
    simp only [List.map]
    have hg : (exSame.filter fun r => pairKey r = (1, 4)) = exSame := by decide
    rw [hg]
    have hlen : exSame.length = 2 := by decide
    have hsum : sumOutcome exSame = 0 := by decide
    simp [hlen, hsum]

/-- Evaluation of the year-bucket summary of `exC7`: rates 0%, 100%, NaN, 0%
in declared label order. -/
theorem exC7_summary :
    summarizeCat yearsLabels false exC7 (salesYearsKey exC7) =
      [⟨"0-2 Years", 1, 0, some 0⟩, ⟨"3-5 Years", 1, 1, some 100⟩,
       ⟨"6-10 Years", 0, 0, none⟩, ⟨"11+ Years", 1, 0, some 0⟩] := by
  have h1 : (exC7.filter fun r => salesYearsKey exC7 r = some "0-2 Years") =
      [{ row0 with yearsAtCompany := 0, attrition := "No" }] := by decide
  have h2 : (exC7.filter fun r => salesYearsKey exC7 r = some "3-5 Years") =
      [{ row0 with yearsAtCompany := 3, attrition := "Yes" }] := by decide
  have h3 : (exC7.filter fun r => salesYearsKey exC7 r = some "6-10 Years") = [] := by decide
  have h4 : (exC7.filter fun r => salesYearsKey exC7 r = some "11+ Years") =
      [{ row0 with yearsAtCompany := 40, attrition := "No" }] := by decide
  unfold summarizeCat
  show (yearsLabels.map fun c => mkSummary c (exC7.filter fun r => salesYearsKey exC7 r = some c)) = _
  simp only [yearsLabels, List.map]
  rw [h1, h2, h3, h4]
  simp [mkSummary, sumOutcome, attritionNumeric, row0]

theorem exC7_chartData :
    (chartData (summarizeCat yearsLabels false exC7 (salesYearsKey exC7))).map (·.key) =
      ["3-5 Years", "0-2 Years", "11+ Years", "6-10 Years"] := by
  rw [exC7_summary]
  decide

/-- C7 (counterexample): the sales chart sorts the groups by descending rate
before rendering; on `exC7` the bars appear as `3-5 Years, 0-2 Years,
11+ Years, 6-10 Years` — not in the declared label order. -/
theorem C7_counterexample :
    ((create_rate_bar_chart_cat yearsLabels exC7 (salesYearsKey exC7)).map
      fun ch => ch.map (·.key)) =
      some ["3-5 Years", "0-2 Years", "11+ Years", "6-10 Years"] ∧
    ["3-5 Years", "0-2 Years", "11+ Years", "6-10 Years"] ≠ yearsLabels := by
  constructor
  · unfold create_rate_bar_chart_cat
    rw [if_neg (by decide : ¬(exC7 = []))]
    show some ((chartData (summarizeCat yearsLabels false exC7 (salesYearsKey exC7))).map
      (·.key)) = _
    rw [exC7_chartData]
  · decide

/-- C7 (amended): the grouped summary itself does list the buckets in the
declared label order (restricted to the observed ones under
`observed=True`, as in the hr variant, which renders that order directly);
but `create_rate_bar_chart` re-sorts the groups by descending rate for the
chart, so the rendered bar order can differ from the declared order. -/
theorem C7_amended (cats : List String) (observed : Bool) (rows : List Row)
    (key : Row → Option String) :
    ((summarizeCat cats observed rows key).map (·.key) =
      (if observed then cats.filter (fun c => rows.any fun r => key r = some c) else cats)) ∧
    (chartData (summarizeCat yearsLabels false exC7 (salesYearsKey exC7))).map (·.key) =
      ["3-5 Years", "0-2 Years", "11+ Years", "6-10 Years"] :=
  ⟨summarizeCat_keys cats observed rows key, exC7_chartData⟩

end Dashboard
